import Mathlib

/-
  Verification of the portal-tse extract core against its specification.

  Shallow embedding of:
    src/extract/metadata_handler.py  (cache table load/save, cache validator)
    src/extract/download_data.py     (fetch orchestrator `download_tse_data`)
    src/extract/config_ingest.py     (static dataset configuration)

  Conventions of the embedding:
  * The metadata JSON file is represented by its parsed content, an association
    list from cache key to cache entry (`CacheTable`); Python `dict` assignment
    `metadata[k] = v` is `insertTable` (replace in place if the key is present,
    else append), matching insertion-ordered `dict` semantics for unique keys.
  * HTTP headers (`requests` response `.headers`, a case-insensitive mapping)
    are represented by the wire list of (name, value) pairs; `.get(k)` is the
    case-insensitive lookup `hget`.
  * Python truthiness of an optional string (`None` and `""` are falsy) is
    `truthy`; Python `a or b` on such values is `pyOr`.
  * Network and filesystem effects of the orchestrator are supplied by a
    `RemoteEnv` record: the outcome of each HEAD attempt, of the GET transfer,
    of opening the ZIP, of the final copy, of the cache save, and today's date.
-/

namespace PortalTse

/-- An HTTP header mapping as it arrives from the server: (name, value) pairs. -/
abbrev Headers := List (String × String)

/-- Python `str.lower()` on a header name, at character level. -/
def lowerStr (s : String) : String :=
  String.mk (s.data.map Char.toLower)

/-- Case-insensitive header lookup, as performed by the `requests` library's
case-insensitive header mapping used at every call site of the source. -/
def hget (h : Headers) (k : String) : Option String :=
  (h.find? (fun p => lowerStr p.1 == lowerStr k)).map (fun p => p.2)

/-- Python truthiness of an optional string: `None` and `""` are falsy. -/
def truthy : Option String → Bool
  | none => false
  | some s => !(s == "")

/-- Python `a or b` on optional strings: `a` if truthy, else `b`. -/
def pyOr (a b : Option String) : Option String :=
  if truthy a then a else b

/-- One cache entry, as stored in `tse_cache_metadata.json`:
`ETag`, `Last-Modified` and `file_path`, each nullable. -/
structure CacheEntry where
  etag : Option String
  lastModified : Option String
  filePath : Option String
deriving Repr, DecidableEq

/-- The parsed content of the metadata JSON file: cache key to entry. -/
abbrev CacheTable := List (String × CacheEntry)

/-- Lookup of a key in the cache table (Python `cache_key in metadata` /
`metadata[cache_key]`). -/
def lookupTable (t : CacheTable) (k : String) : Option CacheEntry :=
  (t.find? (fun p => p.1 == k)).map (fun p => p.2)

/-- Python `dict` assignment `metadata[cache_key] = entry`: replace the entry
in place when the key is present, otherwise append at the end. -/
def insertTable : CacheTable → String → CacheEntry → CacheTable
  | [], k, e => [(k, e)]
  | (k', e') :: rest, k, e =>
      if k' == k then (k, e) :: rest else (k', e') :: insertTable rest k e

/-- The cache key `f"{tipo_consulta}_{ano}"`. -/
def cacheKey (tipo_consulta : String) (ano : Nat) : String :=
  tipo_consulta ++ "_" ++ toString ano

/-- The lookup `current_headers.get('ETag') or current_headers.get('etag')`
(metadata_handler.py lines 111 and 163). -/
def extract_etag (h : Headers) : Option String :=
  pyOr (hget h "ETag") (hget h "etag")

/-- The lookup `current_headers.get('Last-Modified') or current_headers.get('last-modified')`
(metadata_handler.py lines 112 and 164). -/
def extract_last_modified (h : Headers) : Option String :=
  pyOr (hget h "Last-Modified") (hget h "last-modified")

/-- Function `check_if_download_needed` (metadata_handler.py line 74): decides from the
table stored in the metadata file, the key and the probe headers whether a
download is required. `metadataFile` is the table held by the file at
`metadata_path` (what `load_metadata` returns). -/
def check_if_download_needed (metadataFile : CacheTable) (tipo_consulta : String)
    (ano : Nat) (current_headers : Headers) : Bool :=
  match lookupTable metadataFile (cacheKey tipo_consulta ano) with
  | none => true
  | some saved_meta =>
      if truthy (extract_etag current_headers) && truthy saved_meta.etag then
        !(extract_etag current_headers == saved_meta.etag)
      else if truthy (extract_last_modified current_headers) &&
          truthy saved_meta.lastModified then
        !(extract_last_modified current_headers == saved_meta.lastModified)
      else true

/-- Computation `Path(file_path).relative_to(base_path)` with the source's fallback: when
the final path is not under the base path, `str(file_path)` is used unchanged
(metadata_handler.py lines 167-187), modelled at character level. -/
def relative_to_or_absolute (file_path base_path : String) : String :=
  if (base_path ++ "/").data.isPrefixOf file_path.data then
    String.mk (file_path.data.drop (base_path ++ "/").data.length)
  else file_path

/-- Function `update_metadata_after_download` (metadata_handler.py line 137): builds the
new cache entry from the given response headers and the final path relative to
the base path, and merges it into the table. Returns the table that
`save_metadata` is then asked to persist. -/
def update_metadata_after_download (metadataFile : CacheTable) (tipo_consulta : String)
    (ano : Nat) (new_headers : Headers) (file_path base_path : String) : CacheTable :=
  insertTable metadataFile (cacheKey tipo_consulta ano)
    ⟨extract_etag new_headers, extract_last_modified new_headers,
      some (relative_to_or_absolute file_path base_path)⟩

-- sanity checks of the validator on concrete inputs
example : check_if_download_needed [] "cand" 2022 [("ETag", "v1")] = true := by decide
example : check_if_download_needed [("cand_2022", ⟨some "v1", some "L1", none⟩)]
    "cand" 2022 [("etag", "v1"), ("Last-Modified", "L2")] = false := by decide
example : check_if_download_needed [("cand_2022", ⟨some "v1", some "L1", none⟩)]
    "cand" 2022 [("ETag", "v2"), ("Last-Modified", "L1")] = true := by decide
example : check_if_download_needed [("cand_2022", ⟨none, some "L1", none⟩)]
    "cand" 2022 [("last-modified", "L1")] = false := by decide
example : check_if_download_needed [("cand_2022", ⟨none, none, some "p"⟩)]
    "cand" 2022 [("X", "y")] = true := by decide
example : relative_to_or_absolute "/base/sub/2022/f.csv" "/base" = "sub/2022/f.csv" := by decide
example : relative_to_or_absolute "/elsewhere/f.csv" "/base" = "/elsewhere/f.csv" := by decide

/-- One dataset configuration from `CONSULTAS_CONFIG` (config_ingest.py). -/
structure ConsultaConfig where
  consulta : String
  pasta_destino : String
  descricao : String
deriving Repr, DecidableEq

/-- The static `CONSULTAS_CONFIG` table of config_ingest.py. -/
def CONSULTAS_CONFIG : List (String × ConsultaConfig) :=
  [("cand", ⟨"consulta_cand", "candidatos", "Dados de candidatos"⟩),
   ("cassacao", ⟨"motivo_cassacao", "cassacao_candidatos",
      "Motivos de cassação de candidatos"⟩),
   ("bens", ⟨"bem_candidato", "bens_candidatos", "Bens declarados por candidatos"⟩),
   ("vot_partido", ⟨"votacao_partido_munzona", "votacao_partido_munzona",
      "Votação por partido, município e zona"⟩),
   ("vot_cand", ⟨"votacao_candidato_munzona", "votacao_candidato_munzona",
      "Votação nominal por candidato, município e zona"⟩),
   ("comparecimento", ⟨"perfil_comparecimento_abstencao", "comparecimento_abstencao",
      "Comparecimento e Abstenção das eleições"⟩)]

/-- Membership test `tipo_consulta in CONSULTAS_CONFIG` / `CONSULTAS_CONFIG[tipo_consulta]`. -/
def lookupConfig (tipo_consulta : String) : Option ConsultaConfig :=
  (CONSULTAS_CONFIG.find? (fun p => p.1 == tipo_consulta)).map (fun p => p.2)

/-- Outcome of one HEAD attempt: a 2xx response with its headers, or a
`requests.RequestException` (timeout, connection error, or non-2xx raised by
`raise_for_status`) carrying its message. -/
inductive HeadAttempt
  | ok (headers : Headers)
  | err (msg : String)

/-- The retry loop of download_data.py lines 81-95: `attempt` ranges over the
given fuel (`MAX_RETRIES` at the call site), each failure is retried
immediately, the first success stops the loop. Returns the successful probe
headers (if any), the number of attempts actually made, and the last recorded
error (`last_head_error`). -/
def headLoop (f : Nat → HeadAttempt) (start fuel : Nat) :
    Option Headers × Nat × Option String :=
  match fuel with
  | 0 => (none, 0, none)
  | fuel' + 1 =>
    match f start with
    | .ok h => (some h, 1, none)
    | .err e =>
        ((headLoop f (start + 1) fuel').1,
         (headLoop f (start + 1) fuel').2.1 + 1,
         some (((headLoop f (start + 1) fuel').2.2).getD e))

/-- Constant `MAX_RETRIES = 3` (download_data.py line 74). -/
def MAX_RETRIES : Nat := 3

/-- The member predicate of download_data.py line 152:
`arquivo.endswith('_BRASIL.csv') or arquivo == arquivo_brasil`.
`endswith` is taken at character level. -/
def isBrasilMatch (arquivo_brasil arquivo : String) : Bool :=
  "_BRASIL.csv".data.isSuffixOf arquivo.data || arquivo == arquivo_brasil

/-- The scan of the ZIP member list (download_data.py lines 151-159): first
member in listing order matching `isBrasilMatch` wins. -/
def findBrasil (namelist : List String) (arquivo_brasil : String) : Option String :=
  namelist.find? (isBrasilMatch arquivo_brasil)

/-- External effects supplied to one `download_tse_data` invocation:
the outcome of each HEAD attempt (by 0-based attempt index), the outcome of the
GET transfer (`none` = `requests.RequestException` or temp-write failure,
`some h` = success with response headers `h`), whether the ZIP opens
(`zipfile.BadZipFile` otherwise), its member list, whether the final copy
succeeds, whether `save_metadata` succeeds, and today's `YYYYMMDD` date.
`saveFailTable` is the table the metadata file holds after a failed save
attempt: `save_metadata` opens the file with mode `'w'`, which truncates in
place before `json.dump` writes, so a failure during the write leaves the file
empty or partial (which `load_metadata` parses as the empty table), while a
failure before the open (mkdir or open itself) leaves the prior content; the
source does not determine which, so the post-failure content is an input. -/
structure RemoteEnv where
  headAttempt : Nat → HeadAttempt
  getOutcome : Option Headers
  zipOk : Bool
  zipNamelist : List String
  copyOk : Bool
  saveOk : Bool
  saveFailTable : CacheTable
  today : String

/-- Result of `download_tse_data`: the returned path, the `None` returned on a
valid cache (skip), or the exception that propagates. -/
inductive DLResult
  | success (path : String)
  | skipped
  | errInvalidTipo
  | errCacheCheck (lastErr : Option String)
  | errTransfer
  | errBadZip
  | errMemberNotFound (namelist : List String)
  | errStorage
deriving Repr, DecidableEq

/-- Observable outcome of one `download_tse_data` invocation: its result, the
content of the metadata file afterwards, how many HEAD attempts were made,
whether the GET transfer was performed, which ZIP member was extracted, and
whether the final artifact was written. -/
structure DLOutcome where
  result : DLResult
  table : CacheTable
  headAttemptsMade : Nat
  getPerformed : Bool
  extractedMember : Option String
  artifactWritten : Bool
deriving Repr, DecidableEq

/-- Function `download_tse_data` (download_data.py line 21). `metadataFile` is the
content of `tse_cache_metadata.json` under `base_path` before the call; the
returned outcome carries its content after the call. Control flow mirrors the
source: validate `tipo_consulta`; run the HEAD retry loop; abort if it fails;
skip if the cache is valid; GET the ZIP; open it and pick the first `_BRASIL`
member (error carrying the full member list when absent); copy to
`{base_path}/{pasta_destino}/{ano}/{consulta}_{ano}_BRASIL_{today}.csv`; update
the cache from the GET headers. A failed save is swallowed (the exception is
caught and logged at download_data.py lines 203-204) and the file is left in
whatever state the interrupted save produced (`env.saveFailTable`). -/
def download_tse_data (tipo_consulta : String) (ano : Nat) (base_path : String)
    (env : RemoteEnv) (metadataFile : CacheTable) : DLOutcome :=
  match lookupConfig tipo_consulta with
  | none => ⟨DLResult.errInvalidTipo, metadataFile, 0, false, none, false⟩
  | some config =>
    match headLoop env.headAttempt 0 MAX_RETRIES with
    | (none, nAtt, lastErr) =>
        ⟨DLResult.errCacheCheck lastErr, metadataFile, nAtt, false, none, false⟩
    | (some head_headers, nAtt, _) =>
      if check_if_download_needed metadataFile tipo_consulta ano head_headers then
        match env.getOutcome with
        | none => ⟨DLResult.errTransfer, metadataFile, nAtt, true, none, false⟩
        | some get_headers =>
          if env.zipOk then
            match findBrasil env.zipNamelist
                (config.consulta ++ "_" ++ toString ano ++ "_BRASIL.csv") with
            | none =>
                ⟨DLResult.errMemberNotFound env.zipNamelist, metadataFile, nAtt,
                  true, none, false⟩
            | some arquivo =>
              if env.copyOk then
                ⟨DLResult.success
                    (base_path ++ "/" ++ config.pasta_destino ++ "/" ++ toString ano ++
                      "/" ++ (config.consulta ++ "_" ++ toString ano ++ "_BRASIL_" ++
                        env.today ++ ".csv")),
                  (if env.saveOk then
                    update_metadata_after_download metadataFile tipo_consulta ano
                      get_headers
                      (base_path ++ "/" ++ config.pasta_destino ++ "/" ++ toString ano ++
                        "/" ++ (config.consulta ++ "_" ++ toString ano ++ "_BRASIL_" ++
                          env.today ++ ".csv"))
                      base_path
                  else env.saveFailTable),
                  nAtt, true, some arquivo, true⟩
              else ⟨DLResult.errStorage, metadataFile, nAtt, true, some arquivo, false⟩
          else ⟨DLResult.errBadZip, metadataFile, nAtt, true, none, false⟩
      else ⟨DLResult.skipped, metadataFile, nAtt, false, none, false⟩

/-- A fully successful concrete environment, used in sanity checks and
witnesses: probe and transfer both return `ETag: "v1"`. -/
def envOkV1 : RemoteEnv where
  headAttempt := fun _ => HeadAttempt.ok [("ETag", "v1")]
  getOutcome := some [("ETag", "v1")]
  zipOk := true
  zipNamelist := ["leiame.pdf", "consulta_cand_2022_BRASIL.csv"]
  copyOk := true
  saveOk := true
  saveFailTable := []
  today := "20240101"

example :
    (download_tse_data "cand" 2022 "/base" envOkV1 []).result =
      DLResult.success "/base/candidatos/2022/consulta_cand_2022_BRASIL_20240101.csv" := by
  decide

example :
    (download_tse_data "cand" 2022 "/base" envOkV1 []).table =
      [("cand_2022", ⟨some "v1", none,
        some "candidatos/2022/consulta_cand_2022_BRASIL_20240101.csv"⟩)] := by
  decide

example :
    (download_tse_data "cand" 2022 "/base" envOkV1
      [("cand_2022", ⟨some "v1", none, some "x"⟩)]).result = DLResult.skipped := by
  decide

/-- Effects and result of one `check_if_download_needed` call: how many times
the metadata file is read (`load_metadata` at line 101), how many times it is
written, and the boolean decision. -/
structure CheckRun where
  fileReads : Nat
  fileWrites : Nat
  result : Bool
deriving Repr, DecidableEq

/-- Function `check_if_download_needed` together with its filesystem effects: it loads
the table from the metadata file (exactly one read) and writes nothing.
`metadataFile` is the table stored in the file at `metadata_path` when the
call happens. -/
def check_if_download_needed_run (metadataFile : CacheTable) (tipo_consulta : String)
    (ano : Nat) (current_headers : Headers) : CheckRun :=
  ⟨1, 0, check_if_download_needed metadataFile tipo_consulta ano current_headers⟩

/-- Effects of one `save_metadata` call (metadata_handler.py lines 52-71):
whether the parent directory was ensured, the successive contents of the file
observable at `metadata_path` (in order), and whether an exception propagated. -/
structure SaveRun where
  ensuredDir : Bool
  states : List String
  raised : Bool
deriving Repr, DecidableEq

/-- Function `save_metadata`: `metadata_path.parent.mkdir(parents=True, exist_ok=True)`,
then `open(metadata_path, 'w')` — which truncates the file in place — then
`json.dump` writes the serialized table; any exception is logged and re-raised.
`states` lists the file contents observable at `metadata_path` in order: the
prior content, the empty content right after truncation, and — when the write
completes — the new serialized content. -/
def save_metadata_run (oldContent serialized : String) (writeOk : Bool) : SaveRun :=
  if writeOk then ⟨true, [oldContent, "", serialized], false⟩
  else ⟨true, [oldContent, ""], true⟩

/-- Lists: `l1` is a prefix of `l1 ++ l2`, in `isPrefixOf` form. -/
theorem isPrefixOf_self_append (l1 l2 : List Char) : l1.isPrefixOf (l1 ++ l2) = true := by
  induction l1 with
  | nil => simp [List.isPrefixOf]
  | cons c cs ih => simp [List.isPrefixOf, ih]

/-- Stripping the base from a path actually under the base. -/
theorem relative_strip (bp rest : String) :
    relative_to_or_absolute (bp ++ "/" ++ rest) bp = rest := by
  show relative_to_or_absolute ((bp ++ "/") ++ rest) bp = rest
  unfold relative_to_or_absolute
  have hd : ((bp ++ "/") ++ rest).data = (bp ++ "/").data ++ rest.data := rfl
  rw [hd, isPrefixOf_self_append, if_pos rfl, List.drop_left]

/-- Looking up the key just inserted returns the new entry. -/
theorem lookupTable_insertTable_self (t : CacheTable) (k : String) (e : CacheEntry) :
    lookupTable (insertTable t k e) k = some e := by
  induction t with
  | nil => simp [insertTable, lookupTable, List.find?]
  | cons p rest ih =>
    obtain ⟨k', e'⟩ := p
    by_cases h : (k' == k) = true
    · simp [insertTable, h, lookupTable, List.find?]
    · simp only [insertTable, h, if_false, Bool.false_eq_true]
      simpa [lookupTable, List.find?, h] using ih

/-- The retry loop makes at most `fuel` attempts. -/
theorem headLoop_count_le (f : Nat → HeadAttempt) :
    ∀ (fuel start : Nat), (headLoop f start fuel).2.1 ≤ fuel := by
  intro fuel
  induction fuel with
  | zero => intro s; simp [headLoop]
  | succ n ih =>
    intro s
    unfold headLoop
    cases hfs : f s with
    | ok h => simp
    | err e => simpa using Nat.succ_le_succ (ih (s + 1))

/-- Every branch of the orchestrator either leaves the metadata file unchanged
or returns a success. -/
theorem download_table_or_success (tipo : String) (ano : Nat) (base : String)
    (env : RemoteEnv) (t : CacheTable) :
    (download_tse_data tipo ano base env t).table = t ∨
      ∃ p, (download_tse_data tipo ano base env t).result = DLResult.success p := by
  unfold download_tse_data
  repeat' split
  all_goals first
    | exact Or.inl rfl
    | exact Or.inr ⟨_, rfl⟩

/-- In every branch past the configuration check, the reported attempt count
is the retry loop's count. -/
theorem download_attempts_eq (tipo : String) (ano : Nat) (base : String)
    (env : RemoteEnv) (t : CacheTable) (cfg : ConsultaConfig)
    (hcfg : lookupConfig tipo = some cfg) :
    (download_tse_data tipo ano base env t).headAttemptsMade =
      (headLoop env.headAttempt 0 MAX_RETRIES).2.1 := by
  unfold download_tse_data
  simp only [hcfg]
  split <;> rename_i heq <;> rw [heq]
  repeat' split
  all_goals rfl

/-- C1: `check_if_download_needed` follows the spec's decision order, first
applicable rule winning: with no entry for the key it returns true regardless
of headers; else with the strong validator (ETag) present (non-empty, Python
truthiness) on both probe headers and stored entry it returns false exactly
when the two are equal under case-sensitive comparison, whatever the weak
validator says; else with the weak validator (Last-Modified) present on both
it returns false exactly when the two are equal; else it returns true. -/
theorem C1_validator_decision_order (table : CacheTable) (tipo : String) (ano : Nat)
    (h : Headers) :
    (lookupTable table (cacheKey tipo ano) = none →
      check_if_download_needed table tipo ano h = true) ∧
    (∀ e, lookupTable table (cacheKey tipo ano) = some e →
      truthy (extract_etag h) = true → truthy e.etag = true →
      (check_if_download_needed table tipo ano h = false ↔ extract_etag h = e.etag)) ∧
    (∀ e, lookupTable table (cacheKey tipo ano) = some e →
      (truthy (extract_etag h) && truthy e.etag) = false →
      truthy (extract_last_modified h) = true → truthy e.lastModified = true →
      (check_if_download_needed table tipo ano h = false ↔
        extract_last_modified h = e.lastModified)) ∧
    (∀ e, lookupTable table (cacheKey tipo ano) = some e →
      (truthy (extract_etag h) && truthy e.etag) = false →
      (truthy (extract_last_modified h) && truthy e.lastModified) = false →
      check_if_download_needed table tipo ano h = true) := by
  refine ⟨?_, ?_, ?_, ?_⟩
  · intro hnone
    simp [check_if_download_needed, hnone]
  · intro e he h1 h2
    simp [check_if_download_needed, he, h1, h2]
  · intro e he h12 h3 h4
    simp [check_if_download_needed, he, h12, h3, h4]
  · intro e he h12 h34
    simp [check_if_download_needed, he, h12, h34]

/-- C1 witness: the four decision branches at concrete inputs — no entry;
matching strong validator with differing weak validator; matching weak
validator with no strong one; neither validator available. -/
theorem C1_validator_decision_order_witness :
    check_if_download_needed [] "cand" 2022 [("ETag", "v1")] = true ∧
    check_if_download_needed [("cand_2022", ⟨some "v1", some "L1", none⟩)] "cand" 2022
      [("ETag", "v1"), ("Last-Modified", "L2")] = false ∧
    check_if_download_needed [("cand_2022", ⟨none, some "L1", none⟩)] "cand" 2022
      [("Last-Modified", "L1")] = false ∧
    check_if_download_needed [("cand_2022", ⟨none, none, some "p"⟩)] "cand" 2022
      [("X", "y")] = true := by
  refine ⟨?_, ?_, ?_, ?_⟩
  · exact (C1_validator_decision_order [] "cand" 2022 [("ETag", "v1")]).1 (by decide)
  · exact ((C1_validator_decision_order
      [("cand_2022", ⟨some "v1", some "L1", none⟩)] "cand" 2022
      [("ETag", "v1"), ("Last-Modified", "L2")]).2.1 ⟨some "v1", some "L1", none⟩
      (by decide) (by decide) (by decide)).mpr (by decide)
  · exact ((C1_validator_decision_order
      [("cand_2022", ⟨none, some "L1", none⟩)] "cand" 2022
      [("Last-Modified", "L1")]).2.2.1 ⟨none, some "L1", none⟩
      (by decide) (by decide) (by decide) (by decide)).mpr (by decide)
  · exact (C1_validator_decision_order
      [("cand_2022", ⟨none, none, some "p"⟩)] "cand" 2022
      [("X", "y")]).2.2.2 ⟨none, none, some "p"⟩ (by decide) (by decide) (by decide)

/-- A case-insensitive lookup hits a head pair whose name lowers equally. -/
theorem hget_cons_match (k v q : String) (rest : Headers)
    (hk : lowerStr k = lowerStr q) : hget ((k, v) :: rest) q = some v := by
  unfold hget
  rw [List.find?_cons_of_pos]
  · rfl
  · show (lowerStr k == lowerStr q) = true
    rw [hk]
    simp

/-- C6: validator-header lookup is case-insensitive in the casing the header
name arrives with: whatever the wire casing of the ETag or Last-Modified
header, the extraction the validator and the cache update use finds its
value. -/
theorem C6_header_lookup_case_insensitive (k v : String) (rest : Headers) :
    (lowerStr k = "etag" → extract_etag ((k, v) :: rest) = some v) ∧
    (lowerStr k = "last-modified" → extract_last_modified ((k, v) :: rest) = some v) := by
  constructor
  · intro hk
    have h1 : hget ((k, v) :: rest) "ETag" = some v :=
      hget_cons_match k v "ETag" rest (by rw [hk]; decide)
    have h2 : hget ((k, v) :: rest) "etag" = some v :=
      hget_cons_match k v "etag" rest (by rw [hk]; decide)
    simp [extract_etag, h1, h2, pyOr]
  · intro hk
    have h1 : hget ((k, v) :: rest) "Last-Modified" = some v :=
      hget_cons_match k v "Last-Modified" rest (by rw [hk]; decide)
    have h2 : hget ((k, v) :: rest) "last-modified" = some v :=
      hget_cons_match k v "last-modified" rest (by rw [hk]; decide)
    simp [extract_last_modified, h1, h2, pyOr]

/-- C6 witness: the lookup finds the value under the wire casings `ETAG`,
`Etag` and `LAST-MODIFIED`. -/
theorem C6_header_lookup_case_insensitive_witness :
    extract_etag [("ETAG", "v1")] = some "v1" ∧
    extract_etag [("Etag", "v1")] = some "v1" ∧
    extract_last_modified [("LAST-MODIFIED", "L1")] = some "L1" := by
  refine ⟨?_, ?_, ?_⟩
  · exact (C6_header_lookup_case_insensitive "ETAG" "v1" []).1 (by decide)
  · exact (C6_header_lookup_case_insensitive "Etag" "v1" []).1 (by decide)
  · exact (C6_header_lookup_case_insensitive "LAST-MODIFIED" "L1" []).2 (by decide)

/-- C8 counterexample: the claim says the decision function performs no I/O
and is a pure function of (cache table, key, probe headers). In the source its
input is the metadata file path: it performs a file read (`load_metadata`),
and with the path, key and probe headers all fixed its result still changes
with the external file state — here the same call returns true with an empty
file and false once the file holds a matching entry. -/
theorem C8_counterexample :
    (check_if_download_needed_run [] "cand" 2022 [("ETag", "v1")]).fileReads ≠ 0 ∧
    (check_if_download_needed_run [] "cand" 2022 [("ETag", "v1")]).result = true ∧
    (check_if_download_needed_run [("cand_2022", ⟨some "v1", none, none⟩)] "cand" 2022
      [("ETag", "v1")]).result = false := by
  decide

/-- C8 amended: `check_if_download_needed` performs exactly one read of the
metadata file and no write, and given the file's content it is deterministic
and depends only on the entry stored under the key — two calls over file
states agreeing at the key return the same result for the same key and probe
headers. -/
theorem C8_amended_read_only_decision (t1 t2 : CacheTable) (tipo : String) (ano : Nat)
    (h : Headers)
    (hsame : lookupTable t1 (cacheKey tipo ano) = lookupTable t2 (cacheKey tipo ano)) :
    (check_if_download_needed_run t1 tipo ano h).fileReads = 1 ∧
    (check_if_download_needed_run t1 tipo ano h).fileWrites = 0 ∧
    (check_if_download_needed_run t1 tipo ano h).result =
      (check_if_download_needed_run t2 tipo ano h).result := by
  refine ⟨rfl, rfl, ?_⟩
  simp only [check_if_download_needed_run, check_if_download_needed, hsame]

/-- C8 amended witness: two file states agreeing at the key decide alike. -/
theorem C8_amended_read_only_decision_witness :
    (check_if_download_needed_run [("cand_2022", ⟨some "v1", none, none⟩)]
      "cand" 2022 [("ETag", "v1")]).result =
    (check_if_download_needed_run
      [("bens_2020", ⟨none, none, none⟩), ("cand_2022", ⟨some "v1", none, none⟩)]
      "cand" 2022 [("ETag", "v1")]).result :=
  (C8_amended_read_only_decision
    [("cand_2022", ⟨some "v1", none, none⟩)]
    [("bens_2020", ⟨none, none, none⟩), ("cand_2022", ⟨some "v1", none, none⟩)]
    "cand" 2022 [("ETag", "v1")] (by decide)).2.2

/-- C9 counterexample: the claim says `save_metadata` writes the table
atomically relative to readers, all-or-nothing. The source opens the file with
mode `'w'`, which truncates in place before `json.dump` writes, so during a
completing save a reader can observe the empty content — a state that is
neither the old table ("A") nor the new one ("B"). -/
theorem C9_counterexample :
    "" ∈ (save_metadata_run "A" "B" true).states ∧ "" ≠ "A" ∧ "" ≠ "B" := by
  decide

/-- C9 amended: `save_metadata` ensures the containing directory exists,
starts from the prior content, ends with the full new serialized table when
the write completes, and raises (propagating to the caller) exactly when it
cannot complete; but the write is not atomic relative to readers — the
truncated empty state is always observable between the old and new contents. -/
theorem C9_amended_save_behavior (oldContent serialized : String) (writeOk : Bool) :
    (save_metadata_run oldContent serialized writeOk).ensuredDir = true ∧
    (save_metadata_run oldContent serialized writeOk).raised = (!writeOk) ∧
    (save_metadata_run oldContent serialized writeOk).states.head? = some oldContent ∧
    (writeOk = true →
      (save_metadata_run oldContent serialized writeOk).states.getLast? = some serialized) ∧
    "" ∈ (save_metadata_run oldContent serialized writeOk).states.tail := by
  cases writeOk <;> simp [save_metadata_run]

/-- C9 amended witness: a completing save at concrete contents. -/
theorem C9_amended_save_behavior_witness :
    (save_metadata_run "A" "B" true).raised = (!true) ∧
    (save_metadata_run "A" "B" true).states.getLast? = some "B" :=
  ⟨(C9_amended_save_behavior "A" "B" true).2.1,
   (C9_amended_save_behavior "A" "B" true).2.2.2.1 rfl⟩

/-- Full reduction of the orchestrator on a run whose probe succeeds at the
first attempt, whose cache check requires a download, and whose transfer,
extraction and copy all succeed. -/
theorem download_success_eq (tipo : String) (ano : Nat) (base : String)
    (env : RemoteEnv) (t : CacheTable) (cfg : ConsultaConfig) (hh gh : Headers)
    (m : String)
    (hcfg : lookupConfig tipo = some cfg)
    (hhead : env.headAttempt 0 = HeadAttempt.ok hh)
    (hneed : check_if_download_needed t tipo ano hh = true)
    (hget1 : env.getOutcome = some gh)
    (hzip : env.zipOk = true)
    (hm : findBrasil env.zipNamelist
      (cfg.consulta ++ "_" ++ toString ano ++ "_BRASIL.csv") = some m)
    (hcopy : env.copyOk = true) :
    download_tse_data tipo ano base env t =
      ⟨DLResult.success
          (base ++ "/" ++ cfg.pasta_destino ++ "/" ++ toString ano ++ "/" ++
            (cfg.consulta ++ "_" ++ toString ano ++ "_BRASIL_" ++ env.today ++ ".csv")),
        (if env.saveOk then
          update_metadata_after_download t tipo ano gh
            (base ++ "/" ++ cfg.pasta_destino ++ "/" ++ toString ano ++ "/" ++
              (cfg.consulta ++ "_" ++ toString ano ++ "_BRASIL_" ++ env.today ++ ".csv"))
            base
        else env.saveFailTable),
        1, true, some m, true⟩ := by
  have hHL : headLoop env.headAttempt 0 MAX_RETRIES = (some hh, 1, none) := by
    simp [MAX_RETRIES, headLoop, hhead]
  unfold download_tse_data
  simp only [hcfg, hHL, hneed, if_true, hget1, hzip, hm, hcopy]

/-- C3: when a run of `download_tse_data` ends in a fatal failure past the
cache-validation decision — transfer error on the full download, corrupt
archive, expected member not found, or failure writing the final file — the
metadata file is exactly as it was before the call. -/
theorem C3_failure_leaves_cache_untouched (tipo : String) (ano : Nat) (base : String)
    (env : RemoteEnv) (t : CacheTable)
    (hfail : (download_tse_data tipo ano base env t).result = DLResult.errTransfer ∨
      (download_tse_data tipo ano base env t).result = DLResult.errBadZip ∨
      (∃ ns, (download_tse_data tipo ano base env t).result =
        DLResult.errMemberNotFound ns) ∨
      (download_tse_data tipo ano base env t).result = DLResult.errStorage) :
    (download_tse_data tipo ano base env t).table = t := by
  rcases download_table_or_success tipo ano base env t with h | ⟨p, hp⟩
  · exact h
  · rcases hfail with h' | h' | ⟨ns, h'⟩ | h' <;> rw [hp] at h' <;> simp at h'

/-- Environment whose full transfer (GET) fails after a successful probe. -/
def envTransferFail : RemoteEnv where
  headAttempt := fun _ => HeadAttempt.ok [("ETag", "v2")]
  getOutcome := none
  zipOk := true
  zipNamelist := []
  copyOk := true
  saveOk := true
  saveFailTable := []
  today := "20240101"

/-- C3 witness: a failing transfer leaves the stored entry in place. -/
theorem C3_failure_leaves_cache_untouched_witness :
    (download_tse_data "cand" 2022 "/base" envTransferFail
      [("cand_2022", ⟨some "v1", none, none⟩)]).table =
      [("cand_2022", ⟨some "v1", none, none⟩)] :=
  C3_failure_leaves_cache_untouched "cand" 2022 "/base" envTransferFail
    [("cand_2022", ⟨some "v1", none, none⟩)] (Or.inl (by decide))

/-- C4: the probe loop makes at most 3 attempts; the first success stops it
(first success at 0-based attempt `i` means exactly `i + 1` attempts); and
when all 3 attempts fail the whole fetch aborts with a cache-check failure
carrying the last attempt's error, with no cache mutation, no artifact
written, and no fallback to an unconditional GET. -/
theorem C4_probe_retry_policy (tipo : String) (ano : Nat) (base : String)
    (env : RemoteEnv) (t : CacheTable) (cfg : ConsultaConfig)
    (hcfg : lookupConfig tipo = some cfg) :
    (download_tse_data tipo ano base env t).headAttemptsMade ≤ 3 ∧
    (∀ i hdrs, i < 3 →
      (∀ j, j < i → ∃ e, env.headAttempt j = HeadAttempt.err e) →
      env.headAttempt i = HeadAttempt.ok hdrs →
      (download_tse_data tipo ano base env t).headAttemptsMade = i + 1) ∧
    (∀ e0 e1 e2, env.headAttempt 0 = HeadAttempt.err e0 →
      env.headAttempt 1 = HeadAttempt.err e1 →
      env.headAttempt 2 = HeadAttempt.err e2 →
      (download_tse_data tipo ano base env t).result =
        DLResult.errCacheCheck (some e2) ∧
      (download_tse_data tipo ano base env t).table = t ∧
      (download_tse_data tipo ano base env t).getPerformed = false ∧
      (download_tse_data tipo ano base env t).artifactWritten = false) := by
  refine ⟨?_, ?_, ?_⟩
  · rw [download_attempts_eq tipo ano base env t cfg hcfg]
    exact headLoop_count_le env.headAttempt MAX_RETRIES 0
  · intro i hdrs hi hprev hok
    rw [download_attempts_eq tipo ano base env t cfg hcfg]
    interval_cases i
    · simp [MAX_RETRIES, headLoop, hok]
    · obtain ⟨e0, he0⟩ := hprev 0 (by omega)
      simp [MAX_RETRIES, headLoop, he0, hok]
    · obtain ⟨e0, he0⟩ := hprev 0 (by omega)
      obtain ⟨e1, he1⟩ := hprev 1 (by omega)
      simp [MAX_RETRIES, headLoop, he0, he1, hok]
  · intro e0 e1 e2 he0 he1 he2
    have hHL : headLoop env.headAttempt 0 MAX_RETRIES = (none, 3, some e2) := by
      simp [MAX_RETRIES, headLoop, he0, he1, he2]
    refine ⟨?_, ?_, ?_, ?_⟩ <;>
      (unfold download_tse_data; simp only [hcfg, hHL])

/-- Environment whose probe fails on every attempt with the same error. -/
def envProbeFail : RemoteEnv where
  headAttempt := fun _ => HeadAttempt.err "connection timed out"
  getOutcome := some []
  zipOk := true
  zipNamelist := []
  copyOk := true
  saveOk := true
  saveFailTable := []
  today := "20240101"

/-- C4 witness: all three probe attempts fail on one environment (abort with
the last error, nothing mutated or transferred); on another the first attempt
succeeds and exactly one attempt is made. -/
theorem C4_probe_retry_policy_witness :
    (download_tse_data "cand" 2022 "/base" envProbeFail []).result =
      DLResult.errCacheCheck (some "connection timed out") ∧
    (download_tse_data "cand" 2022 "/base" envProbeFail []).table = [] ∧
    (download_tse_data "cand" 2022 "/base" envProbeFail []).getPerformed = false ∧
    (download_tse_data "cand" 2022 "/base" envProbeFail []).artifactWritten = false ∧
    (download_tse_data "cand" 2022 "/base" envOkV1 []).headAttemptsMade = 1 := by
  have hfail := (C4_probe_retry_policy "cand" 2022 "/base" envProbeFail []
    ⟨"consulta_cand", "candidatos", "Dados de candidatos"⟩ (by decide)).2.2
    "connection timed out" "connection timed out" "connection timed out" rfl rfl rfl
  have hone := (C4_probe_retry_policy "cand" 2022 "/base" envOkV1 []
    ⟨"consulta_cand", "candidatos", "Dados de candidatos"⟩ (by decide)).2.1
    0 [("ETag", "v1")] (by omega) (fun j hj => absurd hj (by omega)) rfl
  exact ⟨hfail.1, hfail.2.1, hfail.2.2.1, hfail.2.2.2, hone⟩

/-- C7: on a run that reaches extraction, the member list is scanned in
listing order and the first member matching the predicate (name ends with
`_BRASIL.csv`, or equals the canonical `{consulta}_{ano}_BRASIL.csv`) is the
one extracted; when no member matches, the run fails with a member-not-found
error carrying the full member listing and the metadata file is unchanged. -/
theorem C7_member_selection (tipo : String) (ano : Nat) (base : String)
    (env : RemoteEnv) (t : CacheTable) (cfg : ConsultaConfig) (hh gh : Headers)
    (hcfg : lookupConfig tipo = some cfg)
    (hhead : env.headAttempt 0 = HeadAttempt.ok hh)
    (hneed : check_if_download_needed t tipo ano hh = true)
    (hget1 : env.getOutcome = some gh)
    (hzip : env.zipOk = true) :
    (∀ m, findBrasil env.zipNamelist
        (cfg.consulta ++ "_" ++ toString ano ++ "_BRASIL.csv") = some m →
      (download_tse_data tipo ano base env t).extractedMember = some m ∧
      isBrasilMatch (cfg.consulta ++ "_" ++ toString ano ++ "_BRASIL.csv") m = true ∧
      ∃ l1 l2, env.zipNamelist = l1 ++ m :: l2 ∧
        ∀ x ∈ l1,
          isBrasilMatch (cfg.consulta ++ "_" ++ toString ano ++ "_BRASIL.csv") x = false) ∧
    (findBrasil env.zipNamelist
        (cfg.consulta ++ "_" ++ toString ano ++ "_BRASIL.csv") = none →
      (download_tse_data tipo ano base env t).result =
        DLResult.errMemberNotFound env.zipNamelist ∧
      (download_tse_data tipo ano base env t).table = t) := by
  have hHL : headLoop env.headAttempt 0 MAX_RETRIES = (some hh, 1, none) := by
    simp [MAX_RETRIES, headLoop, hhead]
  constructor
  · intro m hm
    refine ⟨?_, ?_, ?_⟩
    · unfold download_tse_data
      simp only [hcfg, hHL, hneed, if_true, hget1, hzip, hm]
      split <;> rfl
    · exact List.find?_some hm
    · obtain ⟨hp, as, bs, heq, hall⟩ := List.find?_eq_some.mp hm
      exact ⟨as, bs, heq, fun x hx => by simpa using hall x hx⟩
  · intro hmn
    unfold download_tse_data
    simp only [hcfg, hHL, hneed, if_true, hget1, hzip, hmn]
    simp

/-- Environment whose archive holds no `_BRASIL.csv` member. -/
def envNoMember : RemoteEnv where
  headAttempt := fun _ => HeadAttempt.ok [("ETag", "v2")]
  getOutcome := some [("ETag", "v2")]
  zipOk := true
  zipNamelist := ["leiame.pdf", "consulta_cand_2022_RJ.csv"]
  copyOk := true
  saveOk := true
  saveFailTable := []
  today := "20240101"

/-- C7 witness: the matching member is the one extracted on one environment;
a memberless archive fails carrying its listing, cache untouched, on
another. -/
theorem C7_member_selection_witness :
    (download_tse_data "cand" 2022 "/base" envOkV1 []).extractedMember =
      some "consulta_cand_2022_BRASIL.csv" ∧
    (download_tse_data "cand" 2022 "/base" envNoMember []).result =
      DLResult.errMemberNotFound ["leiame.pdf", "consulta_cand_2022_RJ.csv"] ∧
    (download_tse_data "cand" 2022 "/base" envNoMember []).table = [] := by
  have hsel := (C7_member_selection "cand" 2022 "/base" envOkV1 []
    ⟨"consulta_cand", "candidatos", "Dados de candidatos"⟩ [("ETag", "v1")]
    [("ETag", "v1")] (by decide) rfl (by decide) rfl rfl).1
    "consulta_cand_2022_BRASIL.csv" (by decide)
  have hnone := (C7_member_selection "cand" 2022 "/base" envNoMember []
    ⟨"consulta_cand", "candidatos", "Dados de candidatos"⟩ [("ETag", "v2")]
    [("ETag", "v2")] (by decide) rfl (by decide) rfl rfl).2 (by decide)
  exact ⟨hsel.1, hnone.1, hnone.2⟩

/-- C5: a fully successful fetch returns the path
`{base}/{pasta_destino}/{ano}/{consulta}_{ano}_BRASIL_{today}.csv`, and the
cache entry saved under `{tipo}_{ano}` holds the ETag and Last-Modified taken
from the GET response headers `gh` (not the probe headers `hh`) together with
the final path relative to the base path; for any path not under the base,
the stored path falls back to the absolute path string. -/
theorem C5_success_result_and_entry (tipo : String) (ano : Nat) (base : String)
    (env : RemoteEnv) (t : CacheTable) (cfg : ConsultaConfig) (hh gh : Headers)
    (m : String)
    (hcfg : lookupConfig tipo = some cfg)
    (hhead : env.headAttempt 0 = HeadAttempt.ok hh)
    (hneed : check_if_download_needed t tipo ano hh = true)
    (hget1 : env.getOutcome = some gh)
    (hzip : env.zipOk = true)
    (hm : findBrasil env.zipNamelist
      (cfg.consulta ++ "_" ++ toString ano ++ "_BRASIL.csv") = some m)
    (hcopy : env.copyOk = true) (hsave : env.saveOk = true) :
    (download_tse_data tipo ano base env t).result =
      DLResult.success (base ++ "/" ++ cfg.pasta_destino ++ "/" ++ toString ano ++
        "/" ++ (cfg.consulta ++ "_" ++ toString ano ++ "_BRASIL_" ++ env.today ++ ".csv")) ∧
    lookupTable (download_tse_data tipo ano base env t).table (cacheKey tipo ano) =
      some ⟨extract_etag gh, extract_last_modified gh,
        some (cfg.pasta_destino ++ "/" ++ toString ano ++ "/" ++
          (cfg.consulta ++ "_" ++ toString ano ++ "_BRASIL_" ++ env.today ++ ".csv"))⟩ ∧
    (∀ fp bp : String, (bp ++ "/").data.isPrefixOf fp.data = false →
      relative_to_or_absolute fp bp = fp) := by
  have h1 := download_success_eq tipo ano base env t cfg hh gh m hcfg hhead hneed
    hget1 hzip hm hcopy
  refine ⟨by rw [h1], ?_, ?_⟩
  · rw [h1]
    simp only [hsave, if_true]
    unfold update_metadata_after_download
    rw [lookupTable_insertTable_self]
    have hca : base ++ "/" ++ cfg.pasta_destino ++ "/" ++ toString ano ++ "/" ++
        (cfg.consulta ++ "_" ++ toString ano ++ "_BRASIL_" ++ env.today ++ ".csv") =
        base ++ "/" ++ (cfg.pasta_destino ++ "/" ++ toString ano ++ "/" ++
          (cfg.consulta ++ "_" ++ toString ano ++ "_BRASIL_" ++ env.today ++ ".csv")) := by
      simp [String.append_assoc]
    rw [hca, relative_strip]
  · intro fp bp hnp
    unfold relative_to_or_absolute
    rw [hnp]
    simp

/-- C5 witness: the concrete success run yields the patterned path and the
cache entry built from the GET headers with the relative stored path. -/
theorem C5_success_result_and_entry_witness :
    (download_tse_data "cand" 2022 "/base" envOkV1 []).result =
      DLResult.success "/base/candidatos/2022/consulta_cand_2022_BRASIL_20240101.csv" ∧
    lookupTable (download_tse_data "cand" 2022 "/base" envOkV1 []).table "cand_2022" =
      some ⟨some "v1", none,
        some "candidatos/2022/consulta_cand_2022_BRASIL_20240101.csv"⟩ := by
  have h := C5_success_result_and_entry "cand" 2022 "/base" envOkV1 []
    ⟨"consulta_cand", "candidatos", "Dados de candidatos"⟩ [("ETag", "v1")]
    [("ETag", "v1")] "consulta_cand_2022_BRASIL.csv"
    (by decide) rfl (by decide) rfl rfl (by decide) rfl rfl
  exact ⟨h.1.trans (by decide), h.2.1.trans (by decide)⟩

/-- C10: when the final artifact has been written but saving the updated cache
table fails, the failure is swallowed: the fetch still succeeds, returning the
final path with the artifact written — the save failure is the one error kind
that does not fail the call (every other kind aborts, per the C3 and C4
theorems). The metadata file is left in whatever state the interrupted save
produced (`env.saveFailTable`, not necessarily the prior table, since
`save_metadata` truncates in place before writing). -/
theorem C10_cache_write_failure_nonfatal (tipo : String) (ano : Nat) (base : String)
    (env : RemoteEnv) (t : CacheTable) (cfg : ConsultaConfig) (hh gh : Headers)
    (m : String)
    (hcfg : lookupConfig tipo = some cfg)
    (hhead : env.headAttempt 0 = HeadAttempt.ok hh)
    (hneed : check_if_download_needed t tipo ano hh = true)
    (hget1 : env.getOutcome = some gh)
    (hzip : env.zipOk = true)
    (hm : findBrasil env.zipNamelist
      (cfg.consulta ++ "_" ++ toString ano ++ "_BRASIL.csv") = some m)
    (hcopy : env.copyOk = true) (hsave : env.saveOk = false) :
    (download_tse_data tipo ano base env t).result =
      DLResult.success (base ++ "/" ++ cfg.pasta_destino ++ "/" ++ toString ano ++
        "/" ++ (cfg.consulta ++ "_" ++ toString ano ++ "_BRASIL_" ++ env.today ++ ".csv")) ∧
    (download_tse_data tipo ano base env t).artifactWritten = true ∧
    (download_tse_data tipo ano base env t).table = env.saveFailTable := by
  have h1 := download_success_eq tipo ano base env t cfg hh gh m hcfg hhead hneed
    hget1 hzip hm hcopy
  refine ⟨by rw [h1], by rw [h1], ?_⟩
  rw [h1]
  simp [hsave]

/-- Environment identical to the successful one except that the cache save
fails during `json.dump`, after the truncating open: the metadata file is
left empty, which `load_metadata` parses as the empty table. -/
def envSaveFail : RemoteEnv where
  headAttempt := fun _ => HeadAttempt.ok [("ETag", "v1")]
  getOutcome := some [("ETag", "v1")]
  zipOk := true
  zipNamelist := ["leiame.pdf", "consulta_cand_2022_BRASIL.csv"]
  copyOk := true
  saveOk := false
  saveFailTable := []
  today := "20240101"

/-- C10 witness: the concrete run with a failing cache save still succeeds
with the artifact written; the metadata file ends in the truncated (empty)
state the interrupted save left, not the prior table. -/
theorem C10_cache_write_failure_nonfatal_witness :
    (download_tse_data "cand" 2022 "/base" envSaveFail
      [("bens_2020", ⟨some "x", none, none⟩)]).result =
      DLResult.success "/base/candidatos/2022/consulta_cand_2022_BRASIL_20240101.csv" ∧
    (download_tse_data "cand" 2022 "/base" envSaveFail
      [("bens_2020", ⟨some "x", none, none⟩)]).artifactWritten = true ∧
    (download_tse_data "cand" 2022 "/base" envSaveFail
      [("bens_2020", ⟨some "x", none, none⟩)]).table = [] := by
  have h := C10_cache_write_failure_nonfatal "cand" 2022 "/base" envSaveFail
    [("bens_2020", ⟨some "x", none, none⟩)]
    ⟨"consulta_cand", "candidatos", "Dados de candidatos"⟩ [("ETag", "v1")]
    [("ETag", "v1")] "consulta_cand_2022_BRASIL.csv"
    (by decide) rfl (by decide) rfl rfl (by decide) rfl rfl
  exact ⟨h.1.trans (by decide), h.2.1, h.2.2⟩

/-- C2: with the remote resource unchanged between two successive fetches —
probe and GET carry the same validator headers both times, whether that is a
non-empty strong validator (ETag) or, with no comparable strong validator, a
non-empty weak one (Last-Modified) — the first call performs the one real
transfer, writes the artifact and returns a success, and the second call
returns Skipped with no transfer, no artifact and the metadata file exactly
as the first call left it. -/
theorem C2_fetch_idempotent (tipo : String) (ano : Nat) (base : String)
    (env : RemoteEnv) (t : CacheTable) (cfg : ConsultaConfig) (hh gh : Headers)
    (m : String)
    (hcfg : lookupConfig tipo = some cfg)
    (hhead : env.headAttempt 0 = HeadAttempt.ok hh)
    (hneed : check_if_download_needed t tipo ano hh = true)
    (hget1 : env.getOutcome = some gh)
    (hzip : env.zipOk = true)
    (hm : findBrasil env.zipNamelist
      (cfg.consulta ++ "_" ++ toString ano ++ "_BRASIL.csv") = some m)
    (hcopy : env.copyOk = true) (hsave : env.saveOk = true)
    (hval : (truthy (extract_etag hh) = true ∧ extract_etag hh = extract_etag gh) ∨
      ((truthy (extract_etag hh) && truthy (extract_etag gh)) = false ∧
        truthy (extract_last_modified hh) = true ∧
        extract_last_modified hh = extract_last_modified gh)) :
    (∃ p, (download_tse_data tipo ano base env t).result = DLResult.success p) ∧
    (download_tse_data tipo ano base env t).getPerformed = true ∧
    (download_tse_data tipo ano base env t).artifactWritten = true ∧
    (download_tse_data tipo ano base env
        (download_tse_data tipo ano base env t).table).result = DLResult.skipped ∧
    (download_tse_data tipo ano base env
        (download_tse_data tipo ano base env t).table).getPerformed = false ∧
    (download_tse_data tipo ano base env
        (download_tse_data tipo ano base env t).table).artifactWritten = false ∧
    (download_tse_data tipo ano base env
        (download_tse_data tipo ano base env t).table).table =
      (download_tse_data tipo ano base env t).table := by
  have h1 := download_success_eq tipo ano base env t cfg hh gh m hcfg hhead hneed
    hget1 hzip hm hcopy
  have hHL : headLoop env.headAttempt 0 MAX_RETRIES = (some hh, 1, none) := by
    simp [MAX_RETRIES, headLoop, hhead]
  have hlook : lookupTable (download_tse_data tipo ano base env t).table
      (cacheKey tipo ano) =
      some ⟨extract_etag gh, extract_last_modified gh,
        some (relative_to_or_absolute
          (base ++ "/" ++ cfg.pasta_destino ++ "/" ++ toString ano ++ "/" ++
            (cfg.consulta ++ "_" ++ toString ano ++ "_BRASIL_" ++ env.today ++ ".csv"))
          base)⟩ := by
    rw [h1]
    simp only [hsave, if_true]
    unfold update_metadata_after_download
    exact lookupTable_insertTable_self _ _ _
  have hcheck2 : check_if_download_needed (download_tse_data tipo ano base env t).table
      tipo ano hh = false := by
    unfold check_if_download_needed
    rw [hlook]
    rcases hval with ⟨hv, he⟩ | ⟨hcond, hlmv, hlme⟩
    · simp [← he, hv]
    · simp [hcond, ← hlme, hlmv]
  have hsecond : download_tse_data tipo ano base env
      (download_tse_data tipo ano base env t).table =
      ⟨DLResult.skipped, (download_tse_data tipo ano base env t).table, 1, false,
        none, false⟩ := by
    generalize hT : (download_tse_data tipo ano base env t).table = T at hcheck2 ⊢
    unfold download_tse_data
    simp only [hcfg, hHL, hcheck2]
    simp
  refine ⟨⟨_, by rw [h1]⟩, by rw [h1], by rw [h1], by rw [hsecond], by rw [hsecond],
    by rw [hsecond], by rw [hsecond]⟩

/-- Environment for an unchanged remote carrying only the weak validator:
probe and transfer both return just `Last-Modified: "L1"`. -/
def envOkLM : RemoteEnv where
  headAttempt := fun _ => HeadAttempt.ok [("Last-Modified", "L1")]
  getOutcome := some [("Last-Modified", "L1")]
  zipOk := true
  zipNamelist := ["consulta_cand_2022_BRASIL.csv"]
  copyOk := true
  saveOk := true
  saveFailTable := []
  today := "20240101"

/-- C2 witness: concrete pairs of calls over an unchanged remote — first
succeeds with a transfer, second is Skipped without one and leaves the file
as the first call wrote it — once with an ETag-bearing remote and once with a
remote serving only Last-Modified. -/
theorem C2_fetch_idempotent_witness :
    (∃ p, (download_tse_data "cand" 2022 "/base" envOkV1 []).result =
      DLResult.success p) ∧
    (download_tse_data "cand" 2022 "/base" envOkV1 []).getPerformed = true ∧
    (download_tse_data "cand" 2022 "/base" envOkV1
        (download_tse_data "cand" 2022 "/base" envOkV1 []).table).result =
      DLResult.skipped ∧
    (download_tse_data "cand" 2022 "/base" envOkV1
        (download_tse_data "cand" 2022 "/base" envOkV1 []).table).getPerformed = false ∧
    (download_tse_data "cand" 2022 "/base" envOkV1
        (download_tse_data "cand" 2022 "/base" envOkV1 []).table).table =
      (download_tse_data "cand" 2022 "/base" envOkV1 []).table ∧
    (download_tse_data "cand" 2022 "/base" envOkLM
        (download_tse_data "cand" 2022 "/base" envOkLM []).table).result =
      DLResult.skipped ∧
    (download_tse_data "cand" 2022 "/base" envOkLM
        (download_tse_data "cand" 2022 "/base" envOkLM []).table).getPerformed = false := by
  have h := C2_fetch_idempotent "cand" 2022 "/base" envOkV1 []
    ⟨"consulta_cand", "candidatos", "Dados de candidatos"⟩ [("ETag", "v1")]
    [("ETag", "v1")] "consulta_cand_2022_BRASIL.csv"
    (by decide) rfl (by decide) rfl rfl (by decide) rfl rfl
    (Or.inl ⟨by decide, rfl⟩)
  have hlm := C2_fetch_idempotent "cand" 2022 "/base" envOkLM []
    ⟨"consulta_cand", "candidatos", "Dados de candidatos"⟩ [("Last-Modified", "L1")]
    [("Last-Modified", "L1")] "consulta_cand_2022_BRASIL.csv"
    (by decide) rfl (by decide) rfl rfl (by decide) rfl rfl
    (Or.inr ⟨by decide, by decide, rfl⟩)
  exact ⟨h.1, h.2.1, h.2.2.2.1, h.2.2.2.2.1, h.2.2.2.2.2.2,
    hlm.2.2.2.1, hlm.2.2.2.2.1⟩

end PortalTse
